import Mathlib

/-!
# Periodic task demo (`source/main.c`): shallow embedding and checked properties

The embedding follows `main.c` function by function.  One *release* of a task
is one pass through the body of its `for( ;; )` loop, up to the call of
`vTaskDelayUntil`.  Values that come from the outside (the level returned by
`GPIO_read`, the results of the creation calls in `main`) are arguments.
The services `main.c` calls but does not define (queue, serial port, GPIO,
delay-until) are modelled from the specification and marked as such.
-/

namespace Demo

/-! ## Constants of `main.c` -/

/-- The constant `#define BUTTON1_PERIOD 50`. -/
def BUTTON1_PERIOD : Nat := 50
/-- The constant `#define BUTTON2_PERIOD 50`. -/
def BUTTON2_PERIOD : Nat := 50
/-- The constant `#define TRANSMITTER_PERIOD 100`. -/
def TRANSMITTER_PERIOD : Nat := 100
/-- The constant `#define RECEIVER_PERIOD 20`. -/
def RECEIVER_PERIOD : Nat := 20
/-- The constant `#define LOAD1_PERIOD 10`. -/
def LOAD1_PERIOD : Nat := 10
/-- The constant `#define LOAD2_PERIOD 100`. -/
def LOAD2_PERIOD : Nat := 100
/-- The constant `#define QUEUE_SIZE 10`. -/
def QUEUE_SIZE : Nat := 10
/-- The constant `#define QUEUE_MSG_SIZE 20`. -/
def QUEUE_MSG_SIZE : Nat := 20

/-! ## Data model -/

/-- Modelled from the spec: the type `pinState_t` of `GPIO.h` (not part of
`main.c`); the digital I/O service reads one of the two levels High, Low. -/
inductive pinState_t where
  | PIN_IS_LOW
  | PIN_IS_HIGH
deriving DecidableEq, Repr

/-- Modelled from the spec: the port identifiers of `GPIO.h` used by `main.c`. -/
inductive portX_t where
  | PORT_0
  | PORT_1
deriving DecidableEq, Repr

/-- Modelled from the spec: the pin identifiers of `GPIO.h` used by `main.c`. -/
inductive pinX_t where
  | PIN0
  | PIN1
deriving DecidableEq, Repr

/-- The message type `xQueue_msg`: `uint32_t size; char msg[QUEUE_MSG_SIZE];`.
The array is a list of characters (of length `QUEUE_MSG_SIZE` for every value
built by `mkMsg`). -/
structure xQueue_msg where
  size : Nat
  msg : List Char
deriving DecidableEq, Repr

/-- The C initialiser `{n, "text"}` of an `xQueue_msg`: the array receives the
characters of the literal and the remaining elements are zero. -/
def mkMsg (n : Nat) (text : String) : xQueue_msg :=
  { size := n
    msg := text.toList ++ List.replicate (QUEUE_MSG_SIZE - text.length) (Char.ofNat 0) }

/-- Number of characters of the C string held in a character array: the
characters before the first NUL. -/
def cstrlen (buf : List Char) : Nat :=
  (buf.takeWhile (fun c => c != Char.ofNat 0)).length

/-- The text of the C string held in a character array. -/
def ctext (buf : List Char) : String :=
  String.mk (buf.takeWhile (fun c => c != Char.ofNat 0))

/-- The `rising_msg` of `vButton_1_Monitor_Task`. -/
def rising_msg_1 : xQueue_msg := mkMsg 15 "rising button 1"
/-- The `falling_msg` of `vButton_1_Monitor_Task`. -/
def falling_msg_1 : xQueue_msg := mkMsg 16 "falling button 1"
/-- The `rising_msg` of `vButton_2_Monitor_Task`. -/
def rising_msg_2 : xQueue_msg := mkMsg 15 "rising button 2"
/-- The `falling_msg` of `vButton_2_Monitor_Task`. -/
def falling_msg_2 : xQueue_msg := mkMsg 16 "falling button 2"
/-- The `msg` of `vPeriodic_Transmitter_Task`. -/
def periodic_msg : xQueue_msg := mkMsg 12 "Periodic msg"

/-- Every message a task of `main.c` passes to `xQueueSend`. -/
def producerMsgs : List xQueue_msg :=
  [rising_msg_1, falling_msg_1, rising_msg_2, falling_msg_2, periodic_msg]

/-- Modelled from the spec: the state of the queue behind a `QueueHandle_t`
(the queue implementation is not part of `main.c`): a bounded FIFO with a fixed
number of slots; the head of the list is the oldest item. -/
structure Queue where
  capacity : Nat
  items : List xQueue_msg
deriving DecidableEq, Repr

/-- A call of an external service, as recorded in the order the code makes it. -/
inductive Call where
  | queueSend (item : xQueue_msg) (xTicksToWait : Nat) (passed : Bool)
  | queueReceive (xTicksToWait : Nat) (received : Option xQueue_msg)
  | serialPutChar (c : Char)
  | serialPutString (buf : List Char) (len : Nat)
  | gpioWrite (port : portX_t) (pin : pinX_t) (level : pinState_t)
deriving DecidableEq, Repr

/-- The state shared by the tasks and the hooks: the globals of `main.c`
(`xMsgs_QueueHandler`, `System_totalTime`, `Idle_totalTime`), the bytes
accepted so far by the serial sink, and the record of service calls. -/
structure World where
  xMsgs_QueueHandler : Queue
  System_totalTime : Nat
  Idle_totalTime : Nat
  serial : List Char
  trace : List Call
deriving DecidableEq, Repr

/-! ## External services -/

/-- Modelled from the spec: `CreateQueue(capacity, itemSize)` of the queue
service; the new queue is empty. -/
def xQueueCreate (uxQueueLength : Nat) : Queue :=
  { capacity := uxQueueLength, items := [] }

/-- Modelled from the spec: `Send(item, wait=0)` of the queue service (absent
from `main.c`): on success the item is appended at the tail and the call
reports success; on a full queue it reports failure at once and the item is
lost.  The call is recorded with its wait argument and its result. -/
def xQueueSend (w : World) (item : xQueue_msg) (xTicksToWait : Nat) : World :=
  if w.xMsgs_QueueHandler.items.length < w.xMsgs_QueueHandler.capacity then
    { w with
      xMsgs_QueueHandler :=
        { w.xMsgs_QueueHandler with items := w.xMsgs_QueueHandler.items ++ [item] }
      trace := w.trace ++ [Call.queueSend item xTicksToWait true] }
  else
    { w with trace := w.trace ++ [Call.queueSend item xTicksToWait false] }

/-- Modelled from the spec: `Receive(wait=0)` of the queue service (absent
from `main.c`): on a non-empty queue the head item is removed and returned; on
an empty queue the call fails and leaves the queue unchanged.  The call is
recorded with its wait argument and its result. -/
def xQueueReceive (w : World) (xTicksToWait : Nat) : Option xQueue_msg × World :=
  match w.xMsgs_QueueHandler.items with
  | [] => (none, { w with trace := w.trace ++ [Call.queueReceive xTicksToWait none] })
  | m :: rest =>
    (some m,
      { w with
        xMsgs_QueueHandler := { w.xMsgs_QueueHandler with items := rest }
        trace := w.trace ++ [Call.queueReceive xTicksToWait (some m)] })

/-- Modelled from the spec: `PutChar(byte)` of the serial output service
(absent from `main.c`): the byte goes to the sink. -/
def xSerialPutChar (w : World) (c : Char) : World :=
  { w with serial := w.serial ++ [c], trace := w.trace ++ [Call.serialPutChar c] }

/-- Modelled from the spec: `PutString(buffer, length)` of the serial output
service (absent from `main.c`): the first `length` bytes of the buffer go to
the sink.  (A length beyond the array would make the C code read past it; the
list model stops at the end of the array.) -/
def vSerialPutString (w : World) (buf : List Char) (len : Nat) : World :=
  { w with
    serial := w.serial ++ buf.take len
    trace := w.trace ++ [Call.serialPutString buf len] }

/-- Modelled from the spec: `Write(port, pin, level)` of the digital I/O
service (absent from `main.c`); the call is recorded. -/
def GPIO_write (w : World) (port : portX_t) (pin : pinX_t) (level : pinState_t) : World :=
  { w with trace := w.trace ++ [Call.gpioWrite port pin level] }

/-- Modelled from the spec: `DelayUntil(&lastWake, period)` of the task
scheduling service (absent from `main.c`): the caller is suspended until
`lastWake + period` (a release already in the past fires immediately) and
`lastWake` is then updated.  Given the tick at which the call is made, the
result is the tick at which the caller resumes and the new `lastWake`. -/
def vTaskDelayUntil (now : Nat) (pxPreviousWakeTime : Nat) (xTimeIncrement : Nat) :
    Nat × Nat :=
  (max now (pxPreviousWakeTime + xTimeIncrement), pxPreviousWakeTime + xTimeIncrement)

/-! ## Tasks: one release of each -/

/-- One release of `vButton_1_Monitor_Task`: `curr_buttonStatus` is the level
returned by `GPIO_read(PORT_1,PIN0)`, `prev_buttonState` the task's local
variable; the result is the new value of that variable and the new world. -/
def vButton_1_Monitor_Task (curr_buttonStatus : pinState_t) (prev_buttonState : pinState_t)
    (w : World) : pinState_t × World :=
  if curr_buttonStatus ≠ prev_buttonState then
    let w1 :=
      if curr_buttonStatus = pinState_t.PIN_IS_LOW then
        xQueueSend w rising_msg_1 0
      else
        xQueueSend w falling_msg_1 0
    (curr_buttonStatus, w1)
  else
    (prev_buttonState, w)

/-- One release of `vButton_2_Monitor_Task`: `curr_buttonStatus` is the level
returned by `GPIO_read(PORT_1,PIN1)`. -/
def vButton_2_Monitor_Task (curr_buttonStatus : pinState_t) (prev_buttonState : pinState_t)
    (w : World) : pinState_t × World :=
  if curr_buttonStatus ≠ prev_buttonState then
    let w1 :=
      if curr_buttonStatus = pinState_t.PIN_IS_LOW then
        xQueueSend w rising_msg_2 0
      else
        xQueueSend w falling_msg_2 0
    (curr_buttonStatus, w1)
  else
    (prev_buttonState, w)

/-- One release of `vPeriodic_Transmitter_Task`. -/
def vPeriodic_Transmitter_Task (w : World) : World :=
  xQueueSend w periodic_msg 0

/-- One release of `vUart_Receiver_Task`: `msg_buffer` is written by a
successful receive only. -/
def vUart_Receiver_Task (w : World) : World :=
  match xQueueReceive w 0 with
  | (some msg_buffer, w1) =>
    vSerialPutString (xSerialPutChar w1 (Char.ofNat 10)) msg_buffer.msg msg_buffer.size
  | (none, w1) => w1

/-- One release of `vLoad_1_Simulation_Task`: the counting loop
`for( i = 0; i < 33200; i++ ) i = i;` touches the local `i` only. -/
def vLoad_1_Simulation_Task (w : World) : World := w

/-- One release of `vLoad_2_Simulation_Task`: the counting loop
`for( i = 0; i < 80000; i++ ) i = i;` touches the local `i` only. -/
def vLoad_2_Simulation_Task (w : World) : World := w

/-- The tick hook `vApplicationTickHook`: two writes to the trace pin. -/
def vApplicationTickHook (w : World) : World :=
  GPIO_write (GPIO_write w portX_t.PORT_0 pinX_t.PIN0 pinState_t.PIN_IS_HIGH)
    portX_t.PORT_0 pinX_t.PIN0 pinState_t.PIN_IS_LOW

/-! ## The task set created by `main` -/

/-- The six task functions of `main.c`. -/
inductive TaskId where
  | Button_1_Monitor
  | Button_2_Monitor
  | Periodic_Transmitter
  | Uart_Receiver
  | Load_1
  | Load_2
deriving DecidableEq, Repr

/-- The local constant `xFrequency` of each task function, the increment it
passes to `vTaskDelayUntil`. -/
def xFrequency : TaskId → Nat
  | TaskId.Button_1_Monitor => BUTTON1_PERIOD
  | TaskId.Button_2_Monitor => BUTTON2_PERIOD
  | TaskId.Periodic_Transmitter => TRANSMITTER_PERIOD
  | TaskId.Uart_Receiver => RECEIVER_PERIOD
  | TaskId.Load_1 => LOAD1_PERIOD
  | TaskId.Load_2 => LOAD2_PERIOD

/-- The arguments of one `xTaskPeriodicCreate` call of `main` (the parameter
pointer, always 0, and the handle address are left out). -/
structure PeriodicCreateArgs where
  pxTaskCode : TaskId
  pcName : String
  usStackDepth : Nat
  uxPriority : Nat
  period : Nat
deriving DecidableEq, Repr

/-- The six `xTaskPeriodicCreate` calls of `main`, in program order. -/
def mainCreateCalls : List PeriodicCreateArgs :=
  [ { pxTaskCode := TaskId.Button_1_Monitor, pcName := "Button_1_Monitor",
      usStackDepth := 100, uxPriority := 1, period := BUTTON1_PERIOD },
    { pxTaskCode := TaskId.Button_2_Monitor, pcName := "Button_2_Monitor",
      usStackDepth := 100, uxPriority := 2, period := BUTTON2_PERIOD },
    { pxTaskCode := TaskId.Periodic_Transmitter, pcName := "Periodic_Transmitter",
      usStackDepth := 100, uxPriority := 3, period := TRANSMITTER_PERIOD },
    { pxTaskCode := TaskId.Uart_Receiver, pcName := "Uart_Receiver",
      usStackDepth := 100, uxPriority := 4, period := RECEIVER_PERIOD },
    { pxTaskCode := TaskId.Load_1, pcName := "Load_1",
      usStackDepth := 100, uxPriority := 5, period := LOAD1_PERIOD },
    { pxTaskCode := TaskId.Load_2, pcName := "Load_2",
      usStackDepth := 100, uxPriority := 6, period := LOAD2_PERIOD } ]

/-- The period `main` passes to `xTaskPeriodicCreate` for a task. -/
def createPeriod (task : TaskId) : Option Nat :=
  (mainCreateCalls.find? (fun c => c.pxTaskCode = task)).map (fun c => c.period)

/-- The priority `main` passes to `xTaskPeriodicCreate` for a task. -/
def createPriority (task : TaskId) : Option Nat :=
  (mainCreateCalls.find? (fun c => c.pxTaskCode = task)).map (fun c => c.uxPriority)

/-! ## `main` -/

/-- What the startup calls of `main` return: whether `xQueueCreate` gave a
non-null handle, whether each `xTaskPeriodicCreate` succeeded, and whether
`vTaskStartScheduler` took over for good (`false`: it returned). -/
structure StartupResults where
  queueCreated : Bool
  taskCreated : TaskId → Bool
  schedulerStarted : Bool

/-- A statement executed by `main`, with the result of the call where it has one. -/
inductive StartupStep where
  | setupHardware
  | queueCreate (uxQueueLength : Nat) (created : Bool)
  | taskPeriodicCreate (args : PeriodicCreateArgs) (created : Bool)
  | readTimer
  | startScheduler
deriving DecidableEq, Repr

/-- Where `main` ends up: the scheduler runs the tasks, or `main` spins in its
final `for( ;; );`. -/
inductive MainOutcome where
  | schedulerRunning
  | haltLoop
deriving DecidableEq, Repr

/-- The function `main`: hardware setup, queue creation, the six task
creations, the timer read and the scheduler start follow one another with no
test of any result; the final `for( ;; );` is reached when
`vTaskStartScheduler` returns. -/
def main (r : StartupResults) : List StartupStep × MainOutcome :=
  let steps0 := [StartupStep.setupHardware]
  let steps1 := steps0 ++ [StartupStep.queueCreate QUEUE_SIZE r.queueCreated]
  let steps2 := steps1 ++
    mainCreateCalls.map (fun c => StartupStep.taskPeriodicCreate c (r.taskCreated c.pxTaskCode))
  let steps3 := steps2 ++ [StartupStep.readTimer]
  let steps4 := steps3 ++ [StartupStep.startScheduler]
  if r.schedulerStarted then (steps4, MainOutcome.schedulerRunning)
  else (steps4, MainOutcome.haltLoop)

/-- Whether a startup step is a task creation. -/
def StartupStep.isTaskCreate : StartupStep → Bool
  | StartupStep.taskPeriodicCreate _ _ => true
  | _ => false

/-- Whether a startup step is a creation call (queue or task) that failed. -/
def StartupStep.isFailedCreate : StartupStep → Bool
  | StartupStep.queueCreate _ created => !created
  | StartupStep.taskPeriodicCreate _ created => !created
  | _ => false

/-- The steps `main` executed after its first failed creation call (empty when
no creation failed). -/
def stepsAfterFirstFailure (steps : List StartupStep) : List StartupStep :=
  (steps.dropWhile (fun st => !st.isFailedCreate)).drop 1

/-- The startup results in which the queue creation fails, every task
creation succeeds and the scheduler starts. -/
def queueCreationFails : StartupResults :=
  { queueCreated := false, taskCreated := fun _ => true, schedulerStarted := true }

/-! ## The running system -/

/-- The world together with the local variable `prev_buttonState` of each of
the two monitor tasks. -/
structure System where
  w : World
  prev_buttonState_1 : pinState_t
  prev_buttonState_2 : pinState_t
deriving DecidableEq, Repr

/-- The world when the scheduler starts: the queue created by
`xQueueCreate (QUEUE_SIZE, sizeof(xQueue_msg))`, the counters at their
initial value 0, nothing written yet. -/
def startupWorld : World :=
  { xMsgs_QueueHandler := xQueueCreate QUEUE_SIZE
    System_totalTime := 0
    Idle_totalTime := 0
    serial := []
    trace := [] }

/-- The system when the scheduler starts: both `prev_buttonState` variables
hold their initialiser `PIN_IS_LOW`. -/
def startup : System :=
  { w := startupWorld
    prev_buttonState_1 := pinState_t.PIN_IS_LOW
    prev_buttonState_2 := pinState_t.PIN_IS_LOW }

/-- One release of one task, or one tick interrupt; a monitor release carries
the level its `GPIO_read` returns. -/
inductive Release where
  | button1 (level : pinState_t)
  | button2 (level : pinState_t)
  | transmitter
  | receiver
  | load1
  | load2
  | tickHook
deriving DecidableEq, Repr

/-- The effect of one release on the system. -/
def System.step (s : System) : Release → System
  | Release.button1 level =>
    let r := vButton_1_Monitor_Task level s.prev_buttonState_1 s.w
    { s with prev_buttonState_1 := r.1, w := r.2 }
  | Release.button2 level =>
    let r := vButton_2_Monitor_Task level s.prev_buttonState_2 s.w
    { s with prev_buttonState_2 := r.1, w := r.2 }
  | Release.transmitter => { s with w := vPeriodic_Transmitter_Task s.w }
  | Release.receiver => { s with w := vUart_Receiver_Task s.w }
  | Release.load1 => { s with w := vLoad_1_Simulation_Task s.w }
  | Release.load2 => { s with w := vLoad_2_Simulation_Task s.w }
  | Release.tickHook => { s with w := vApplicationTickHook s.w }

/-- The system after a sequence of releases. -/
def System.run (s : System) (rs : List Release) : System :=
  rs.foldl System.step s

/-- Number of messages in the queue. -/
def occupancy (w : World) : Nat := w.xMsgs_QueueHandler.items.length

/-- The results of the `xQueueSend` calls of a trace, in order. -/
def sendResults (tr : List Call) : List Bool :=
  tr.filterMap (fun c => match c with
    | Call.queueSend _ _ passed => some passed
    | _ => none)

/-- The messages the `xQueueSend` calls of a trace were given, in order. -/
def sentItems (tr : List Call) : List xQueue_msg :=
  tr.filterMap (fun c => match c with
    | Call.queueSend item _ _ => some item
    | _ => none)

/-- Number of `xQueueReceive` calls of a trace. -/
def receiveCalls (tr : List Call) : Nat :=
  (tr.filter (fun c => match c with
    | Call.queueReceive _ _ => true
    | _ => false)).length

/-- Whether a release is one of `vButton_1_Monitor_Task`. -/
def Release.isButton1 : Release → Bool
  | Release.button1 _ => true
  | _ => false

/-- Whether a release is one of `vButton_2_Monitor_Task`. -/
def Release.isButton2 : Release → Bool
  | Release.button2 _ => true
  | _ => false

/-- The input sequence LOW, LOW, HIGH, HIGH. -/
def edgeSamples : List pinState_t :=
  [pinState_t.PIN_IS_LOW, pinState_t.PIN_IS_LOW, pinState_t.PIN_IS_HIGH, pinState_t.PIN_IS_HIGH]

/-- Invariant of the message path: every message in the queue, every message
ever passed to `xQueueSend`, and every buffer and length ever passed to
`vSerialPutString` comes from one of the five producer messages. -/
def World.MessagesFromProducers (w : World) : Prop :=
  (∀ m ∈ w.xMsgs_QueueHandler.items, m ∈ producerMsgs)
  ∧ (∀ m ∈ sentItems w.trace, m ∈ producerMsgs)
  ∧ (∀ buf len, Call.serialPutString buf len ∈ w.trace →
      ∃ m ∈ producerMsgs, buf = m.msg ∧ len = m.size)

/-! ## Periodic release -/

/-- The loop shared by the six task functions:
`xLastWakeTime = xTaskGetTickCount(); for(;;) { body; vTaskDelayUntil(&xLastWakeTime, xFrequency); }`.
`t0` is the tick count read at task start and `exec k` the number of ticks
that pass between the `k`-th release and the following `vTaskDelayUntil` call.
The result is the tick of the `k`-th release (releases are counted from 0)
and the value of `xLastWakeTime` during it.  Ticks are natural numbers, the
simulated clock of the specification. -/
def releaseState (task : TaskId) (t0 : Nat) (exec : Nat → Nat) : Nat → Nat × Nat
  | 0 => (t0, t0)
  | k + 1 =>
    let st := releaseState task t0 exec k
    vTaskDelayUntil (st.1 + exec k) st.2 (xFrequency task)

/-- The tick of the `k`-th release of a task. -/
def releaseTick (task : TaskId) (t0 : Nat) (exec : Nat → Nat) (k : Nat) : Nat :=
  (releaseState task t0 exec k).1

/-! ## Tick-driven run of the whole task set -/

/-- The other level. -/
def toggle : pinState_t → pinState_t
  | pinState_t.PIN_IS_LOW => pinState_t.PIN_IS_HIGH
  | pinState_t.PIN_IS_HIGH => pinState_t.PIN_IS_LOW

/-- The six tasks from the highest creation priority (6) to the lowest (1). -/
def tasksByPriority : List TaskId :=
  [TaskId.Load_2, TaskId.Load_1, TaskId.Uart_Receiver, TaskId.Periodic_Transmitter,
   TaskId.Button_2_Monitor, TaskId.Button_1_Monitor]

/-- With every task started at tick 0, a task is released at the multiples
of its period. -/
def releasedAt (t : Nat) (task : TaskId) : Bool :=
  t % xFrequency task == 0

/-- The tasks released at tick `t`, in the order they run. -/
def releasedTasks (t : Nat) : List TaskId :=
  tasksByPriority.filter (releasedAt t)

/-- One release of a task in the saturation scenario: the input of a monitor
differs from its previous level at every sample. -/
def simRelease (s : System) : TaskId → System
  | TaskId.Button_1_Monitor => s.step (Release.button1 (toggle s.prev_buttonState_1))
  | TaskId.Button_2_Monitor => s.step (Release.button2 (toggle s.prev_buttonState_2))
  | TaskId.Periodic_Transmitter => s.step Release.transmitter
  | TaskId.Uart_Receiver => s.step Release.receiver
  | TaskId.Load_1 => s.step Release.load1
  | TaskId.Load_2 => s.step Release.load2

/-- The system after the releases of tick `t`, given the system before them. -/
def simTick (s : System) (t : Nat) : System :=
  (releasedTasks t).foldl simRelease s

/-- The system after all releases of the ticks `0 .. t`. -/
def simulate : Nat → System
  | 0 => simTick startup 0
  | t + 1 => simTick (simulate t) (t + 1)

/-- The system before the releases of tick `t`. -/
def simBefore : Nat → System
  | 0 => startup
  | t + 1 => simulate t

/-- The system at an observation point: after the first `k` releases of tick `t`. -/
def observe (t k : Nat) : System :=
  ((releasedTasks t).take k).foldl simRelease (simBefore t)

/-! ## Occupancy bookkeeping for the tick-driven run (used in proofs) -/

/-- The change of the occupancy of a queue of capacity `QUEUE_SIZE` caused by
one release in the saturation scenario: the forwarder takes one message if
there is one, each of the three producers adds one if there is room, the load
tasks leave the queue alone. -/
def occupancyStep (n : Nat) : TaskId → Nat
  | TaskId.Uart_Receiver => n - 1
  | TaskId.Load_1 => n
  | TaskId.Load_2 => n
  | _ => if n < QUEUE_SIZE then n + 1 else n

/-- The occupancy after a list of releases. -/
def occupancyAfter (tasks : List TaskId) (n : Nat) : Nat :=
  tasks.foldl occupancyStep n

/-- The occupancy after the releases of tick `t` in the saturation scenario, in
closed form: the pattern 3, 2, 1, 3, 2, 1 repeats every 100 ticks. -/
def occupancyAt (t : Nat) : Nat :=
  if t % 100 < 20 then 3
  else if t % 100 < 40 then 2
  else if t % 100 < 50 then 1
  else if t % 100 < 60 then 3
  else if t % 100 < 80 then 2
  else 1

/-! # Properties -/

open pinState_t Release TaskId

/-! ## Queue service lemmas -/

theorem sendResults_append (a b : List Call) :
    sendResults (a ++ b) = sendResults a ++ sendResults b := by
  simp [sendResults, List.filterMap_append]

theorem sentItems_append (a b : List Call) :
    sentItems (a ++ b) = sentItems a ++ sentItems b := by
  simp [sentItems, List.filterMap_append]

theorem xQueueSend_trace (w : World) (item : xQueue_msg) (n : Nat) :
    (xQueueSend w item n).trace = w.trace ++
      [Call.queueSend item n (decide (occupancy w < w.xMsgs_QueueHandler.capacity))] := by
  unfold xQueueSend occupancy
  split <;> simp [*]

theorem xQueueSend_room (w : World) (item : xQueue_msg) (n : Nat)
    (h : occupancy w < w.xMsgs_QueueHandler.capacity) :
    xQueueSend w item n =
      { w with
        xMsgs_QueueHandler :=
          { w.xMsgs_QueueHandler with items := w.xMsgs_QueueHandler.items ++ [item] }
        trace := w.trace ++ [Call.queueSend item n true] } := by
  unfold occupancy at h
  simp [xQueueSend, h]

theorem xQueueSend_full (w : World) (item : xQueue_msg) (n : Nat)
    (h : ¬ occupancy w < w.xMsgs_QueueHandler.capacity) :
    xQueueSend w item n = { w with trace := w.trace ++ [Call.queueSend item n false] } := by
  unfold occupancy at h
  simp [xQueueSend, h]

/-! ## Input monitors -/

/-- C1 (what the code does on the claim's input): starting from previous level
LOW and a queue with room, the four releases sampling LOW, LOW, HIGH, HIGH
enqueue exactly one message, at the third release, and nothing at the
releases with an unchanged sample; but the message enqueued at the LOW to HIGH
transition is the instance's `falling_msg` (text "falling button N", length
16), not its `rising_msg`: the code selects `rising_msg` when the new level is
`PIN_IS_LOW`. -/
theorem C1_low_to_high_enqueues_falling (s : System)
    (h1 : s.prev_buttonState_1 = PIN_IS_LOW)
    (h2 : s.prev_buttonState_2 = PIN_IS_LOW)
    (hroom : occupancy s.w < s.w.xMsgs_QueueHandler.capacity) :
    (s.run ((edgeSamples.take 1).map button1) = s
      ∧ s.run ((edgeSamples.take 2).map button1) = s
      ∧ (s.run ((edgeSamples.take 3).map button1)).w.xMsgs_QueueHandler.items
          = s.w.xMsgs_QueueHandler.items ++ [falling_msg_1]
      ∧ s.run ((edgeSamples.take 4).map button1) = s.run ((edgeSamples.take 3).map button1)
      ∧ (s.run (edgeSamples.map button1)).w.trace
          = s.w.trace ++ [Call.queueSend falling_msg_1 0 true]
      ∧ ctext falling_msg_1.msg = "falling button 1" ∧ falling_msg_1.size = 16
      ∧ falling_msg_1 ≠ rising_msg_1)
    ∧
    (s.run ((edgeSamples.take 1).map button2) = s
      ∧ s.run ((edgeSamples.take 2).map button2) = s
      ∧ (s.run ((edgeSamples.take 3).map button2)).w.xMsgs_QueueHandler.items
          = s.w.xMsgs_QueueHandler.items ++ [falling_msg_2]
      ∧ s.run ((edgeSamples.take 4).map button2) = s.run ((edgeSamples.take 3).map button2)
      ∧ (s.run (edgeSamples.map button2)).w.trace
          = s.w.trace ++ [Call.queueSend falling_msg_2 0 true]
      ∧ ctext falling_msg_2.msg = "falling button 2" ∧ falling_msg_2.size = 16
      ∧ falling_msg_2 ≠ rising_msg_2) := by
  obtain ⟨w, p1, p2⟩ := s
  simp only at h1 h2 hroom
  subst h1 h2
  refine ⟨⟨?_, ?_, ?_, ?_, ?_, by decide, by decide, by decide⟩,
    ⟨?_, ?_, ?_, ?_, ?_, by decide, by decide, by decide⟩⟩ <;>
    simp [edgeSamples, System.run, System.step, vButton_1_Monitor_Task,
      vButton_2_Monitor_Task, xQueueSend_room, hroom]

/-- Witness of C1 at the startup state (empty queue): the third release puts
`falling_msg` of button 1 into the queue. -/
theorem C1_low_to_high_enqueues_falling_witness :
    (startup.run ((edgeSamples.take 3).map button1)).w.xMsgs_QueueHandler.items
      = startup.w.xMsgs_QueueHandler.items ++ [falling_msg_1] :=
  (C1_low_to_high_enqueues_falling startup rfl rfl (by decide)).1.2.2.1

/-- C2: one release of either input monitor, for every previous level, sampled
level and world: the stored previous level after the release is the sampled
level; the release makes one zero-wait `xQueueSend` call when the sampled
level differs from the previous one and no service call at all otherwise (the
world is then unchanged). -/
theorem C2_monitor_release (curr prev : pinState_t) (w : World) :
    ((vButton_1_Monitor_Task curr prev w).1 = curr
      ∧ (vButton_1_Monitor_Task curr prev w).2 =
          (if curr ≠ prev then
            xQueueSend w (if curr = PIN_IS_LOW then rising_msg_1 else falling_msg_1) 0
           else w)
      ∧ (vButton_1_Monitor_Task curr prev w).2.trace = w.trace ++
          (if curr ≠ prev then
            [Call.queueSend (if curr = PIN_IS_LOW then rising_msg_1 else falling_msg_1)
              0 (decide (occupancy w < w.xMsgs_QueueHandler.capacity))]
           else [])
      ∧ (sendResults (vButton_1_Monitor_Task curr prev w).2.trace).length =
          (sendResults w.trace).length + (if curr ≠ prev then 1 else 0))
    ∧
    ((vButton_2_Monitor_Task curr prev w).1 = curr
      ∧ (vButton_2_Monitor_Task curr prev w).2 =
          (if curr ≠ prev then
            xQueueSend w (if curr = PIN_IS_LOW then rising_msg_2 else falling_msg_2) 0
           else w)
      ∧ (vButton_2_Monitor_Task curr prev w).2.trace = w.trace ++
          (if curr ≠ prev then
            [Call.queueSend (if curr = PIN_IS_LOW then rising_msg_2 else falling_msg_2)
              0 (decide (occupancy w < w.xMsgs_QueueHandler.capacity))]
           else [])
      ∧ (sendResults (vButton_2_Monitor_Task curr prev w).2.trace).length =
          (sendResults w.trace).length + (if curr ≠ prev then 1 else 0)) := by
  constructor
  · cases curr <;> cases prev <;>
      simp [vButton_1_Monitor_Task, xQueueSend_trace, sendResults_append, sendResults]
  · cases curr <;> cases prev <;>
      simp [vButton_2_Monitor_Task, xQueueSend_trace, sendResults_append, sendResults]

theorem step_button1_same (s : System) : s.step (button1 s.prev_buttonState_1) = s := by
  simp [System.step, vButton_1_Monitor_Task]

theorem step_button2_same (s : System) : s.step (button2 s.prev_buttonState_2) = s := by
  simp [System.step, vButton_2_Monitor_Task]

theorem step_prev1_of_not_button1 (s : System) (r : Release) (h : r.isButton1 = false) :
    (s.step r).prev_buttonState_1 = s.prev_buttonState_1 := by
  cases r <;> simp_all [System.step, Release.isButton1]

theorem step_prev2_of_not_button2 (s : System) (r : Release) (h : r.isButton2 = false) :
    (s.step r).prev_buttonState_2 = s.prev_buttonState_2 := by
  cases r <;> simp_all [System.step, Release.isButton2]

theorem run_skip_button1 (rs : List Release) :
    ∀ s : System, (∀ l, button1 l ∈ rs → l = s.prev_buttonState_1) →
      s.run rs = s.run (rs.filter (fun r => !r.isButton1)) := by
  induction rs with
  | nil => intro s _; rfl
  | cons r rs ih =>
    intro s h
    cases hr : r.isButton1 with
    | true =>
      cases r <;> simp [Release.isButton1] at hr
      rename_i l
      have hl : l = s.prev_buttonState_1 := h l (by simp)
      subst hl
      have := ih s (fun l hl => h l (List.mem_cons_of_mem _ hl))
      simpa [System.run, List.filter, Release.isButton1, step_button1_same] using this
    | false =>
      have hp := step_prev1_of_not_button1 s r hr
      have := ih (s.step r) (fun l hl => by rw [hp]; exact h l (List.mem_cons_of_mem _ hl))
      simpa [System.run, List.filter, hr] using this

theorem run_skip_button2 (rs : List Release) :
    ∀ s : System, (∀ l, button2 l ∈ rs → l = s.prev_buttonState_2) →
      s.run rs = s.run (rs.filter (fun r => !r.isButton2)) := by
  induction rs with
  | nil => intro s _; rfl
  | cons r rs ih =>
    intro s h
    cases hr : r.isButton2 with
    | true =>
      cases r <;> simp [Release.isButton2] at hr
      rename_i l
      have hl : l = s.prev_buttonState_2 := h l (by simp)
      subst hl
      have := ih s (fun l hl => h l (List.mem_cons_of_mem _ hl))
      simpa [System.run, List.filter, Release.isButton2, step_button2_same] using this
    | false =>
      have hp := step_prev2_of_not_button2 s r hr
      have := ih (s.step r) (fun l hl => by rw [hp]; exact h l (List.mem_cons_of_mem _ hl))
      simpa [System.run, List.filter, hr] using this

/-- C10: a release of either input monitor whose sample differs from the
previous level while the queue is full (occupancy 10 of capacity 10) makes one
zero-wait send that fails, leaves the queue as it was, and still stores the
sampled level as the previous level; in every later sequence of releases (of any
tasks) in which this monitor keeps sampling that level, its releases do
nothing at all, so the dropped transition is never sent. -/
theorem C10_edge_lost_on_full_queue (s : System) (curr : pinState_t) (rs : List Release)
    (hcap : s.w.xMsgs_QueueHandler.capacity = QUEUE_SIZE)
    (hfull : occupancy s.w = 10) :
    (curr ≠ s.prev_buttonState_1 → (∀ l, button1 l ∈ rs → l = curr) →
      (s.step (button1 curr)).prev_buttonState_1 = curr
      ∧ (s.step (button1 curr)).w =
          { s.w with trace := s.w.trace ++
              [Call.queueSend (if curr = PIN_IS_LOW then rising_msg_1 else falling_msg_1) 0 false] }
      ∧ (s.step (button1 curr)).w.xMsgs_QueueHandler = s.w.xMsgs_QueueHandler
      ∧ (s.step (button1 curr)).run rs
          = (s.step (button1 curr)).run (rs.filter (fun r => !r.isButton1)))
    ∧
    (curr ≠ s.prev_buttonState_2 → (∀ l, button2 l ∈ rs → l = curr) →
      (s.step (button2 curr)).prev_buttonState_2 = curr
      ∧ (s.step (button2 curr)).w =
          { s.w with trace := s.w.trace ++
              [Call.queueSend (if curr = PIN_IS_LOW then rising_msg_2 else falling_msg_2) 0 false] }
      ∧ (s.step (button2 curr)).w.xMsgs_QueueHandler = s.w.xMsgs_QueueHandler
      ∧ (s.step (button2 curr)).run rs
          = (s.step (button2 curr)).run (rs.filter (fun r => !r.isButton2))) := by
  have hnr : ¬ occupancy s.w < s.w.xMsgs_QueueHandler.capacity := by
    rw [hcap, hfull]; decide
  constructor
  · intro hne hrs
    have hp : (s.step (button1 curr)).prev_buttonState_1 = curr := by
      cases curr <;> simp [System.step, vButton_1_Monitor_Task, hne]
    have hw : (s.step (button1 curr)).w =
          { s.w with trace := s.w.trace ++
              [Call.queueSend (if curr = PIN_IS_LOW then rising_msg_1 else falling_msg_1) 0 false] } := by
      cases curr <;> simp [System.step, vButton_1_Monitor_Task, hne, xQueueSend_full, hnr]
    refine ⟨hp, hw, by rw [hw], ?_⟩
    exact run_skip_button1 rs _ (fun l hl => by rw [hp]; exact hrs l hl)
  · intro hne hrs
    have hp : (s.step (button2 curr)).prev_buttonState_2 = curr := by
      cases curr <;> simp [System.step, vButton_2_Monitor_Task, hne]
    have hw : (s.step (button2 curr)).w =
          { s.w with trace := s.w.trace ++
              [Call.queueSend (if curr = PIN_IS_LOW then rising_msg_2 else falling_msg_2) 0 false] } := by
      cases curr <;> simp [System.step, vButton_2_Monitor_Task, hne, xQueueSend_full, hnr]
    refine ⟨hp, hw, by rw [hw], ?_⟩
    exact run_skip_button2 rs _ (fun l hl => by rw [hp]; exact hrs l hl)

/-- Witness of C10: ten transmitter releases fill the queue; a monitor release
that then samples HIGH (previous level LOW) leaves the queue unchanged. -/
theorem C10_edge_lost_on_full_queue_witness :
    ((startup.run (List.replicate 10 transmitter)).step (button1 PIN_IS_HIGH)).w.xMsgs_QueueHandler
      = (startup.run (List.replicate 10 transmitter)).w.xMsgs_QueueHandler :=
  ((C10_edge_lost_on_full_queue (startup.run (List.replicate 10 transmitter)) PIN_IS_HIGH
      [button1 PIN_IS_HIGH, receiver, button1 PIN_IS_HIGH] (by decide) (by decide)).1
    (by decide) (by simp)).2.2.1

/-! ## Forwarder and transmitter -/

theorem receiveCalls_append (a b : List Call) :
    receiveCalls (a ++ b) = receiveCalls a + receiveCalls b := by
  simp [receiveCalls, List.filter_append]

/-- C4: one release of `vUart_Receiver_Task`, for every world: it makes exactly
one `xQueueReceive` call, with wait 0; on a non-empty queue the head message is
removed, the remaining items stay in order (occupancy goes down by one), and
the serial sink receives a line feed followed by the first `size` bytes of the
message's `msg` array (that is `size` bytes whenever `size` does not exceed the
array); on an empty queue nothing is written and only the record of the failed
receive is added to the world. -/
theorem C4_forwarder_release (w : World) :
    receiveCalls (vUart_Receiver_Task w).trace = receiveCalls w.trace + 1
    ∧ (∃ rest, (vUart_Receiver_Task w).trace =
        w.trace ++ Call.queueReceive 0 w.xMsgs_QueueHandler.items.head? :: rest
        ∧ receiveCalls rest = 0)
    ∧ (∀ m rest, w.xMsgs_QueueHandler.items = m :: rest →
        (vUart_Receiver_Task w).xMsgs_QueueHandler.items = rest
        ∧ (vUart_Receiver_Task w).xMsgs_QueueHandler.capacity = w.xMsgs_QueueHandler.capacity
        ∧ occupancy (vUart_Receiver_Task w) + 1 = occupancy w
        ∧ (vUart_Receiver_Task w).serial = w.serial ++ Char.ofNat 10 :: m.msg.take m.size
        ∧ (m.size ≤ m.msg.length → (m.msg.take m.size).length = m.size)
        ∧ (vUart_Receiver_Task w).trace = w.trace ++
            [Call.queueReceive 0 (some m), Call.serialPutChar (Char.ofNat 10),
             Call.serialPutString m.msg m.size])
    ∧ (w.xMsgs_QueueHandler.items = [] →
        vUart_Receiver_Task w = { w with trace := w.trace ++ [Call.queueReceive 0 none] }
        ∧ (vUart_Receiver_Task w).serial = w.serial
        ∧ (vUart_Receiver_Task w).xMsgs_QueueHandler = w.xMsgs_QueueHandler) := by
  obtain ⟨⟨cap, items⟩, tot, idle, ser, tr⟩ := w
  cases items with
  | nil =>
    simp [vUart_Receiver_Task, xQueueReceive, receiveCalls]
  | cons m rest =>
    simp [vUart_Receiver_Task, xQueueReceive, vSerialPutString, xSerialPutChar, receiveCalls,
      occupancy]

/-- Witness of C4: after one transmitter release the queue holds the periodic
message; the forwarder release writes a line feed and its 12 text bytes. -/
theorem C4_forwarder_release_witness :
    (vUart_Receiver_Task (vPeriodic_Transmitter_Task startupWorld)).serial
      = startupWorld.serial ++ Char.ofNat 10 :: periodic_msg.msg.take periodic_msg.size :=
  ((C4_forwarder_release (vPeriodic_Transmitter_Task startupWorld)).2.2.1
    periodic_msg [] (by decide)).2.2.2.1

/-- C5: one release of `vPeriodic_Transmitter_Task`, for every world whose queue
has the capacity 10 given at creation, whatever number `n` of messages it
holds: it makes exactly one `xQueueSend` call, with wait 0, of the fixed message (text
"Periodic msg", length 12); with `n < 10` the message is appended at the tail
and the occupancy becomes `n + 1`; with `n = 10` the send fails and the queue is
unchanged.  Ten releases from the startup world all succeed and fill the
queue; the eleventh send fails and the occupancy stays 10. -/
theorem C5_transmitter_release (w : World)
    (hcap : w.xMsgs_QueueHandler.capacity = QUEUE_SIZE) :
    (vPeriodic_Transmitter_Task w).trace =
        w.trace ++ [Call.queueSend periodic_msg 0 (decide (occupancy w < 10))]
    ∧ ctext periodic_msg.msg = "Periodic msg" ∧ periodic_msg.size = 12
    ∧ (vPeriodic_Transmitter_Task w).serial = w.serial
    ∧ (vPeriodic_Transmitter_Task w).xMsgs_QueueHandler.capacity = QUEUE_SIZE
    ∧ (occupancy w < 10 →
        (vPeriodic_Transmitter_Task w).xMsgs_QueueHandler.items =
            w.xMsgs_QueueHandler.items ++ [periodic_msg]
        ∧ occupancy (vPeriodic_Transmitter_Task w) = occupancy w + 1)
    ∧ (occupancy w = 10 →
        (vPeriodic_Transmitter_Task w).xMsgs_QueueHandler = w.xMsgs_QueueHandler
        ∧ occupancy (vPeriodic_Transmitter_Task w) = 10)
    ∧ occupancy (vPeriodic_Transmitter_Task^[10] startupWorld) = 10
    ∧ sendResults (vPeriodic_Transmitter_Task^[10] startupWorld).trace = List.replicate 10 true
    ∧ occupancy (vPeriodic_Transmitter_Task^[11] startupWorld) = 10
    ∧ (vPeriodic_Transmitter_Task^[11] startupWorld).xMsgs_QueueHandler
        = (vPeriodic_Transmitter_Task^[10] startupWorld).xMsgs_QueueHandler
    ∧ sendResults (vPeriodic_Transmitter_Task^[11] startupWorld).trace
        = List.replicate 10 true ++ [false] := by
  have hc : QUEUE_SIZE = 10 := rfl
  refine ⟨?_, by decide, by decide, ?_, ?_, ?_, ?_, by decide, by decide, by decide, by decide,
    by decide⟩
  · simp [vPeriodic_Transmitter_Task, xQueueSend_trace, hcap, hc]
  · by_cases h : occupancy w < w.xMsgs_QueueHandler.capacity
    · rw [vPeriodic_Transmitter_Task, xQueueSend_room _ _ _ h]
    · rw [vPeriodic_Transmitter_Task, xQueueSend_full _ _ _ h]
  · by_cases h : occupancy w < w.xMsgs_QueueHandler.capacity
    · rw [vPeriodic_Transmitter_Task, xQueueSend_room _ _ _ h]; exact hcap
    · rw [vPeriodic_Transmitter_Task, xQueueSend_full _ _ _ h]; exact hcap
  · intro h
    have h' : occupancy w < w.xMsgs_QueueHandler.capacity := by rw [hcap, hc]; exact h
    rw [vPeriodic_Transmitter_Task, xQueueSend_room _ _ _ h']
    simp [occupancy]
  · intro h
    have h' : ¬ occupancy w < w.xMsgs_QueueHandler.capacity := by rw [hcap, hc, h]; decide
    rw [vPeriodic_Transmitter_Task, xQueueSend_full _ _ _ h']
    exact ⟨rfl, h⟩

/-- Witness of C5 at the startup world (empty queue of capacity 10). -/
theorem C5_transmitter_release_witness :
    (vPeriodic_Transmitter_Task startupWorld).trace =
      startupWorld.trace ++ [Call.queueSend periodic_msg 0 (decide (occupancy startupWorld < 10))] :=
  (C5_transmitter_release startupWorld rfl).1

/-! ## Periodic release -/

theorem releaseState_no_overrun (task : TaskId) (t0 : Nat) (exec : Nat → Nat)
    (h : ∀ k, exec k < xFrequency task) (k : Nat) :
    releaseState task t0 exec k = (t0 + k * xFrequency task, t0 + k * xFrequency task) := by
  induction k with
  | zero => simp [releaseState]
  | succ k ih =>
    have hk := h k
    simp only [releaseState, ih, vTaskDelayUntil, Prod.mk.injEq]
    constructor
    · rw [Nat.succ_mul]; omega
    · rw [Nat.succ_mul]; omega

/-- C3: for each of the six tasks, with `vTaskDelayUntil` modelled as "suspend
until `lastWake + P`, then `lastWake := lastWake + P`" and every execution
shorter than the period `P`, release number `k` (counted from 0, the start of
the task at tick `t0`) happens at tick `t0 + k * P`, so consecutive releases are
exactly `P` ticks apart whatever the execution times were; `P`, the increment
the task body passes to `vTaskDelayUntil`, is the period `main` passes at
creation, and the six periods are 50, 50, 100, 20, 10, 100. -/
theorem C3_drift_free_release (task : TaskId) (t0 : Nat) (exec : Nat → Nat)
    (h : ∀ k, exec k < xFrequency task) (k : Nat) :
    releaseTick task t0 exec k = t0 + k * xFrequency task
    ∧ releaseTick task t0 exec (k + 1) = releaseTick task t0 exec k + xFrequency task
    ∧ createPeriod task = some (xFrequency task)
    ∧ [Button_1_Monitor, Button_2_Monitor, Periodic_Transmitter, Uart_Receiver, Load_1,
        Load_2].map xFrequency = [50, 50, 100, 20, 10, 100] := by
  refine ⟨?_, ?_, ?_, by decide⟩
  · simp [releaseTick, releaseState_no_overrun task t0 exec h k]
  · simp only [releaseTick, releaseState_no_overrun task t0 exec h]
    rw [Nat.succ_mul]; omega
  · cases task <;> decide

/-- Witness of C3: the forwarder (period 20) started at tick 7 with executions
of 3 ticks has its release number 4 at tick 87. -/
theorem C3_drift_free_release_witness :
    releaseTick Uart_Receiver 7 (fun _ => 3) 4 = 7 + 4 * xFrequency Uart_Receiver :=
  (C3_drift_free_release Uart_Receiver 7 (fun _ => 3) (fun _ => (by decide : 3 < xFrequency Uart_Receiver)) 4).1

/-! ## Startup -/

/-- C6 (counterexample to the claim as stated): when `xQueueCreate` fails while
the task creations succeed and the scheduler starts, `main` does not enter the
halt loop: it still makes the six task creation calls after the failed call
and starts the scheduler. -/
theorem C6_failed_creation_does_not_halt :
    queueCreationFails.queueCreated = false
    ∧ (main queueCreationFails).2 = MainOutcome.schedulerRunning
    ∧ (main queueCreationFails).2 ≠ MainOutcome.haltLoop
    ∧ StartupStep.startScheduler ∈ (main queueCreationFails).1
    ∧ ((stepsAfterFirstFailure (main queueCreationFails).1).filter
        StartupStep.isTaskCreate).length = 6 := by
  decide

/-- C6 (amended): whatever the creation calls return, `main` executes the same
steps: hardware setup, the queue creation, the six task creations in program
order, the timer read and the scheduler start, with no result tested; and
`main` ends in its halt loop exactly when `vTaskStartScheduler` returns, that
is when the scheduler itself could not start. -/
theorem C6_main_halts_iff_scheduler_returns (r : StartupResults) :
    (main r).1 =
      [StartupStep.setupHardware, StartupStep.queueCreate QUEUE_SIZE r.queueCreated]
        ++ mainCreateCalls.map
            (fun c => StartupStep.taskPeriodicCreate c (r.taskCreated c.pxTaskCode))
        ++ [StartupStep.readTimer, StartupStep.startScheduler]
    ∧ ((main r).1.filter StartupStep.isTaskCreate).length = 6
    ∧ mainCreateCalls.map (fun c => c.pxTaskCode) =
        [Button_1_Monitor, Button_2_Monitor, Periodic_Transmitter, Uart_Receiver, Load_1, Load_2]
    ∧ StartupStep.startScheduler ∈ (main r).1
    ∧ ((main r).2 = MainOutcome.haltLoop ↔ r.schedulerStarted = false) := by
  obtain ⟨q, tc, sch⟩ := r
  cases sch <;>
    simp [main, mainCreateCalls, StartupStep.isTaskCreate, List.filter]

/-! ## Tick hook -/

theorem vApplicationTickHook_eq (w : World) :
    vApplicationTickHook w =
      { w with trace := w.trace ++
          [Call.gpioWrite portX_t.PORT_0 pinX_t.PIN0 PIN_IS_HIGH,
           Call.gpioWrite portX_t.PORT_0 pinX_t.PIN0 PIN_IS_LOW] } := by
  simp [vApplicationTickHook, GPIO_write]

/-- C7 (counterexample to the claim as stated): one invocation of the tick
hook from the startup world does not increase `System_totalTime`; the counter
is still 0. -/
theorem C7_tick_hook_does_not_count :
    (vApplicationTickHook startupWorld).System_totalTime = 0
    ∧ (vApplicationTickHook startupWorld).System_totalTime
        ≠ startupWorld.System_totalTime + 1 := by
  decide

/-- C7 (amended): `n` invocations of the tick hook leave `System_totalTime` and
`Idle_totalTime` (and the queue and the serial sink) as they were, so from the
startup values both counters are still 0 and the idle counter does not exceed
the total counter; each invocation writes the trace pin `PORT_0`, `PIN0` high
and then low, one pulse per tick. -/
theorem C7_tick_hook_pulses_only (n : Nat) (w : World) :
    (vApplicationTickHook^[n] w).System_totalTime = w.System_totalTime
    ∧ (vApplicationTickHook^[n] w).Idle_totalTime = w.Idle_totalTime
    ∧ (vApplicationTickHook^[n] w).xMsgs_QueueHandler = w.xMsgs_QueueHandler
    ∧ (vApplicationTickHook^[n] w).serial = w.serial
    ∧ (vApplicationTickHook^[n] w).trace = w.trace ++
        (List.replicate n
          [Call.gpioWrite portX_t.PORT_0 pinX_t.PIN0 PIN_IS_HIGH,
           Call.gpioWrite portX_t.PORT_0 pinX_t.PIN0 PIN_IS_LOW]).flatten
    ∧ (vApplicationTickHook^[n] startupWorld).System_totalTime = 0
    ∧ (vApplicationTickHook^[n] startupWorld).Idle_totalTime = 0
    ∧ (vApplicationTickHook^[n] startupWorld).Idle_totalTime
        ≤ (vApplicationTickHook^[n] startupWorld).System_totalTime := by
  have key : ∀ (n : Nat) (w : World), vApplicationTickHook^[n] w =
      { w with trace := w.trace ++
        (List.replicate n
          [Call.gpioWrite portX_t.PORT_0 pinX_t.PIN0 PIN_IS_HIGH,
           Call.gpioWrite portX_t.PORT_0 pinX_t.PIN0 PIN_IS_LOW]).flatten } := by
    intro n
    induction n with
    | zero => intro w; simp
    | succ n ih =>
      intro w
      rw [Function.iterate_succ_apply, ih, vApplicationTickHook_eq]
      simp [List.replicate_succ]
  rw [key n w, key n startupWorld]
  simp [startupWorld]

/-! ## Message well-formedness -/

theorem producerMsgs_wellFormed :
    ∀ m ∈ producerMsgs,
      m.size = cstrlen m.msg ∧ m.size ≤ QUEUE_MSG_SIZE ∧ m.msg.length = QUEUE_MSG_SIZE := by
  decide

theorem xQueueSend_messagesFromProducers (w : World) (item : xQueue_msg) (n : Nat)
    (hitem : item ∈ producerMsgs) (hw : w.MessagesFromProducers) :
    (xQueueSend w item n).MessagesFromProducers := by
  obtain ⟨hq, hs, hp⟩ := hw
  refine ⟨?_, ?_, ?_⟩
  · intro m hm
    unfold xQueueSend at hm
    split at hm
    · simp only [List.mem_append, List.mem_singleton] at hm
      rcases hm with hm | hm
      · exact hq m hm
      · exact hm ▸ hitem
    · exact hq m hm
  · intro m hm
    rw [xQueueSend_trace, sentItems_append] at hm
    simp only [List.mem_append] at hm
    rcases hm with hm | hm
    · exact hs m hm
    · simp [sentItems] at hm
      exact hm ▸ hitem
  · intro buf len hm
    rw [xQueueSend_trace] at hm
    simp only [List.mem_append, List.mem_singleton] at hm
    rcases hm with hm | hm
    · exact hp buf len hm
    · cases hm

theorem vUart_Receiver_Task_messagesFromProducers (w : World) (hw : w.MessagesFromProducers) :
    (vUart_Receiver_Task w).MessagesFromProducers := by
  obtain ⟨⟨cap, items⟩, tot, idle, ser, tr⟩ := w
  obtain ⟨hq, hs, hp⟩ := hw
  simp only at hq hs hp
  cases items with
  | nil =>
    refine ⟨?_, ?_, ?_⟩
    · simp [vUart_Receiver_Task, xQueueReceive]
    · intro m hm
      simp [vUart_Receiver_Task, xQueueReceive, sentItems_append] at hm
      rcases hm with hm | hm
      · exact hs m hm
      · simp [sentItems] at hm
    · intro buf len hm
      simp [vUart_Receiver_Task, xQueueReceive] at hm
      exact hp buf len hm
  | cons m0 rest =>
    refine ⟨?_, ?_, ?_⟩
    · intro m hm
      simp [vUart_Receiver_Task, xQueueReceive, vSerialPutString, xSerialPutChar] at hm
      exact hq m (List.mem_cons_of_mem _ hm)
    · intro m hm
      simp [vUart_Receiver_Task, xQueueReceive, vSerialPutString, xSerialPutChar,
        sentItems_append] at hm
      rcases hm with hm | hm
      · exact hs m hm
      · simp [sentItems] at hm
    · intro buf len hm
      simp [vUart_Receiver_Task, xQueueReceive, vSerialPutString, xSerialPutChar] at hm
      rcases hm with hm | ⟨rfl, rfl⟩
      · exact hp buf len hm
      · exact ⟨m0, hq m0 (List.mem_cons_self _ _), rfl, rfl⟩

theorem vApplicationTickHook_messagesFromProducers (w : World) (hw : w.MessagesFromProducers) :
    (vApplicationTickHook w).MessagesFromProducers := by
  obtain ⟨hq, hs, hp⟩ := hw
  rw [vApplicationTickHook_eq]
  refine ⟨hq, ?_, ?_⟩
  · intro m hm
    simp [sentItems_append] at hm
    rcases hm with hm | hm
    · exact hs m hm
    · simp [sentItems] at hm
  · intro buf len hm
    simp at hm
    exact hp buf len hm

theorem step_messagesFromProducers (s : System) (r : Release)
    (hs : s.w.MessagesFromProducers) : (s.step r).w.MessagesFromProducers := by
  cases r with
  | button1 level =>
    simp only [System.step, vButton_1_Monitor_Task]
    split
    · split
      · exact xQueueSend_messagesFromProducers _ _ _ (by decide) hs
      · exact xQueueSend_messagesFromProducers _ _ _ (by decide) hs
    · exact hs
  | button2 level =>
    simp only [System.step, vButton_2_Monitor_Task]
    split
    · split
      · exact xQueueSend_messagesFromProducers _ _ _ (by decide) hs
      · exact xQueueSend_messagesFromProducers _ _ _ (by decide) hs
    · exact hs
  | transmitter => exact xQueueSend_messagesFromProducers _ _ _ (by decide) hs
  | receiver => exact vUart_Receiver_Task_messagesFromProducers _ hs
  | load1 => exact hs
  | load2 => exact hs
  | tickHook => exact vApplicationTickHook_messagesFromProducers _ hs

theorem run_messagesFromProducers (rs : List Release) :
    ∀ s : System, s.w.MessagesFromProducers → (s.run rs).w.MessagesFromProducers := by
  induction rs with
  | nil => intro s hs; exact hs
  | cons r rs ih =>
    intro s hs
    exact ih (s.step r) (step_messagesFromProducers s r hs)

theorem startup_messagesFromProducers : startup.w.MessagesFromProducers := by
  refine ⟨?_, ?_, ?_⟩ <;> simp [startup, startupWorld, xQueueCreate, sentItems]

/-- C9: each of the five messages a producer passes to `xQueueSend` ("rising
button 1", "falling button 1", "rising button 2", "falling button 2",
"Periodic msg") has a `size` field equal to the number of characters of its
text, at most `QUEUE_MSG_SIZE` = 20, in an array of 20 bytes; and in every
state reached from startup by any sequence of releases, only these messages
were ever sent or are in the queue, and every length the forwarder passed to
`vSerialPutString` is at most 20 and within the buffer passed with it. -/
theorem C9_forwarded_size_within_payload (rs : List Release) :
    (∀ m ∈ producerMsgs,
      m.size = cstrlen m.msg ∧ m.size ≤ QUEUE_MSG_SIZE ∧ m.msg.length = QUEUE_MSG_SIZE)
    ∧ producerMsgs.map (fun m => (ctext m.msg, m.size)) =
        [("rising button 1", 15), ("falling button 1", 16), ("rising button 2", 15),
         ("falling button 2", 16), ("Periodic msg", 12)]
    ∧ (∀ m ∈ sentItems (startup.run rs).w.trace, m ∈ producerMsgs)
    ∧ (∀ m ∈ (startup.run rs).w.xMsgs_QueueHandler.items, m ∈ producerMsgs)
    ∧ (∀ buf len, Call.serialPutString buf len ∈ (startup.run rs).w.trace →
        len ≤ QUEUE_MSG_SIZE ∧ buf.length = QUEUE_MSG_SIZE ∧ len ≤ buf.length) := by
  obtain ⟨hq, hs, hp⟩ := run_messagesFromProducers rs startup startup_messagesFromProducers
  refine ⟨producerMsgs_wellFormed, by decide, hs, hq, ?_⟩
  intro buf len hm
  obtain ⟨m, hmem, rfl, rfl⟩ := hp buf len hm
  obtain ⟨_, h2, h3⟩ := producerMsgs_wellFormed m hmem
  exact ⟨h2, h3, by rw [h3]; exact h2⟩

/-- Witness of C9: after a transmitter release and a forwarder release the
one `vSerialPutString` call carries the periodic message and length 12. -/
theorem C9_forwarded_size_within_payload_witness :
    periodic_msg.size ≤ QUEUE_MSG_SIZE ∧ periodic_msg.msg.length = QUEUE_MSG_SIZE
      ∧ periodic_msg.size ≤ periodic_msg.msg.length :=
  (C9_forwarded_size_within_payload [transmitter, receiver]).2.2.2.2
    periodic_msg.msg periodic_msg.size (by decide)

/-! ## Tick-driven run -/

theorem toggle_ne (l : pinState_t) : toggle l ≠ l := by
  cases l <;> decide

theorem xQueueSend_occupancy (w : World) (item : xQueue_msg) (n : Nat) :
    occupancy (xQueueSend w item n) =
      (if occupancy w < w.xMsgs_QueueHandler.capacity then occupancy w + 1 else occupancy w)
    ∧ (xQueueSend w item n).xMsgs_QueueHandler.capacity = w.xMsgs_QueueHandler.capacity := by
  by_cases h : occupancy w < w.xMsgs_QueueHandler.capacity
  · rw [xQueueSend_room _ _ _ h, if_pos h]; simp [occupancy]
  · rw [xQueueSend_full _ _ _ h, if_neg h]; simp [occupancy]

theorem vUart_Receiver_Task_occupancy (w : World) :
    occupancy (vUart_Receiver_Task w) = occupancy w - 1
    ∧ (vUart_Receiver_Task w).xMsgs_QueueHandler.capacity = w.xMsgs_QueueHandler.capacity
    ∧ sendResults (vUart_Receiver_Task w).trace = sendResults w.trace := by
  obtain ⟨⟨cap, items⟩, tot, idle, ser, tr⟩ := w
  cases items with
  | nil => simp [vUart_Receiver_Task, xQueueReceive, occupancy, sendResults]
  | cons m rest =>
    simp [vUart_Receiver_Task, xQueueReceive, vSerialPutString, xSerialPutChar, occupancy,
      sendResults]

theorem simRelease_producer (s : System) (task : TaskId)
    (h : task = Button_1_Monitor ∨ task = Button_2_Monitor ∨ task = Periodic_Transmitter) :
    ∃ item, (simRelease s task).w = xQueueSend s.w item 0 := by
  rcases h with rfl | rfl | rfl
  · refine ⟨if toggle s.prev_buttonState_1 = PIN_IS_LOW then rising_msg_1 else falling_msg_1, ?_⟩
    simp only [simRelease, System.step, vButton_1_Monitor_Task, if_pos (toggle_ne _)]
    split <;> rfl
  · refine ⟨if toggle s.prev_buttonState_2 = PIN_IS_LOW then rising_msg_2 else falling_msg_2, ?_⟩
    simp only [simRelease, System.step, vButton_2_Monitor_Task, if_pos (toggle_ne _)]
    split <;> rfl
  · exact ⟨periodic_msg, rfl⟩

theorem simRelease_effect (s : System) (task : TaskId)
    (hcap : s.w.xMsgs_QueueHandler.capacity = QUEUE_SIZE) :
    (simRelease s task).w.xMsgs_QueueHandler.capacity = QUEUE_SIZE
    ∧ occupancy (simRelease s task).w = occupancyStep (occupancy s.w) task
    ∧ (occupancy s.w < QUEUE_SIZE → (∀ b ∈ sendResults s.w.trace, b = true) →
        ∀ b ∈ sendResults (simRelease s task).w.trace, b = true) := by
  have prod : ∀ item, (simRelease s task).w = xQueueSend s.w item 0 →
      occupancyStep (occupancy s.w) task
        = (if occupancy s.w < QUEUE_SIZE then occupancy s.w + 1 else occupancy s.w) →
      (simRelease s task).w.xMsgs_QueueHandler.capacity = QUEUE_SIZE
      ∧ occupancy (simRelease s task).w = occupancyStep (occupancy s.w) task
      ∧ (occupancy s.w < QUEUE_SIZE → (∀ b ∈ sendResults s.w.trace, b = true) →
          ∀ b ∈ sendResults (simRelease s task).w.trace, b = true) := by
    intro item hw hstep
    rw [hw, hstep]
    obtain ⟨ho, hc⟩ := xQueueSend_occupancy s.w item 0
    refine ⟨by rw [hc, hcap], by rw [ho, hcap], ?_⟩
    intro hroom hall b hb
    rw [xQueueSend_trace, sendResults_append, hcap] at hb
    simp only [List.mem_append] at hb
    rcases hb with hb | hb
    · exact hall b hb
    · simp [sendResults, hroom] at hb
      exact hb
  cases task with
  | Button_1_Monitor =>
    obtain ⟨item, hw⟩ := simRelease_producer s Button_1_Monitor (Or.inl rfl)
    exact prod item hw rfl
  | Button_2_Monitor =>
    obtain ⟨item, hw⟩ := simRelease_producer s Button_2_Monitor (Or.inr (Or.inl rfl))
    exact prod item hw rfl
  | Periodic_Transmitter =>
    obtain ⟨item, hw⟩ := simRelease_producer s Periodic_Transmitter (Or.inr (Or.inr rfl))
    exact prod item hw rfl
  | Uart_Receiver =>
    obtain ⟨ho, hc, hs⟩ := vUart_Receiver_Task_occupancy s.w
    refine ⟨by simpa [simRelease, System.step, hcap] using hc,
      by simpa [simRelease, System.step, occupancyStep] using ho, ?_⟩
    intro _ hall b hb
    have : (simRelease s Uart_Receiver).w = vUart_Receiver_Task s.w := rfl
    rw [this, hs] at hb
    exact hall b hb
  | Load_1 => exact ⟨hcap, rfl, fun _ hall => hall⟩
  | Load_2 => exact ⟨hcap, rfl, fun _ hall => hall⟩

theorem occupancyStep_le (n : Nat) (task : TaskId) : occupancyStep n task ≤ n + 1 := by
  cases task <;> simp only [occupancyStep] <;> first | omega | (split <;> omega)

theorem foldl_simRelease_effect (tasks : List TaskId) :
    ∀ s : System, s.w.xMsgs_QueueHandler.capacity = QUEUE_SIZE →
      (tasks.foldl simRelease s).w.xMsgs_QueueHandler.capacity = QUEUE_SIZE
      ∧ occupancy (tasks.foldl simRelease s).w = occupancyAfter tasks (occupancy s.w)
      ∧ (occupancy s.w + tasks.length ≤ QUEUE_SIZE →
          (∀ b ∈ sendResults s.w.trace, b = true) →
          ∀ b ∈ sendResults (tasks.foldl simRelease s).w.trace, b = true) := by
  induction tasks with
  | nil => intro s hcap; exact ⟨hcap, rfl, fun _ hall => hall⟩
  | cons task tasks ih =>
    intro s hcap
    obtain ⟨hc1, ho1, hs1⟩ := simRelease_effect s task hcap
    obtain ⟨hc2, ho2, hs2⟩ := ih (simRelease s task) hc1
    refine ⟨hc2, ?_, ?_⟩
    · rw [List.foldl_cons, ho2, ho1]; rfl
    · intro hlen hall
      rw [List.foldl_cons]
      simp only [List.length_cons] at hlen
      have hle := occupancyStep_le (occupancy s.w) task
      exact hs2 (by rw [ho1]; omega) (hs1 (by omega) hall)
theorem releasedAt_mod (t : Nat) (task : TaskId) :
    releasedAt t task = releasedAt (t % 100) task := by
  cases task <;>
    simp [releasedAt, xFrequency, BUTTON1_PERIOD, BUTTON2_PERIOD, TRANSMITTER_PERIOD,
      RECEIVER_PERIOD, LOAD1_PERIOD, LOAD2_PERIOD,
      Nat.mod_mod_of_dvd t (show 50 ∣ 100 by decide),
      Nat.mod_mod_of_dvd t (show 20 ∣ 100 by decide),
      Nat.mod_mod_of_dvd t (show 10 ∣ 100 by decide)]

theorem releasedTasks_mod (t : Nat) : releasedTasks t = releasedTasks (t % 100) := by
  unfold releasedTasks
  congr 1
  funext task
  exact releasedAt_mod t task

theorem occupancyAt_mod (t : Nat) : occupancyAt t = occupancyAt (t % 100) := by
  simp [occupancyAt, Nat.mod_mod]

theorem occupancyAt_le (t : Nat) : occupancyAt t ≤ 3 := by
  unfold occupancyAt
  split_ifs <;> omega

theorem releasedTasks_length_le (t : Nat) : (releasedTasks t).length ≤ 6 := by
  unfold releasedTasks
  exact le_trans (List.length_filter_le _ _) (by decide)

theorem occupancy_table_next :
    ∀ r < 100, occupancyAfter (releasedTasks ((r + 1) % 100)) (occupancyAt r)
      = occupancyAt ((r + 1) % 100) := by
  decide

theorem occupancy_table_within_tick :
    ∀ r < 100, ∀ k < 7,
      occupancyAfter ((releasedTasks ((r + 1) % 100)).take k) (occupancyAt r) ≤ 3 := by
  decide

theorem occupancy_table_first :
    occupancyAfter (releasedTasks 0) 0 = occupancyAt 0
    ∧ ∀ k < 7, occupancyAfter ((releasedTasks 0).take k) 0 ≤ 3 := by
  decide

theorem simulate_invariant (t : Nat) :
    (simulate t).w.xMsgs_QueueHandler.capacity = QUEUE_SIZE
    ∧ occupancy (simulate t).w = occupancyAt t
    ∧ ∀ b ∈ sendResults (simulate t).w.trace, b = true := by
  induction t with
  | zero =>
    obtain ⟨hc, ho, hs⟩ := foldl_simRelease_effect (releasedTasks 0) startup rfl
    refine ⟨hc, ?_, hs (by decide) (by decide)⟩
    show occupancy ((releasedTasks 0).foldl simRelease startup).w = occupancyAt 0
    rw [ho]
    exact occupancy_table_first.1
  | succ t ih =>
    obtain ⟨ihc, iho, ihs⟩ := ih
    obtain ⟨hc, ho, hs⟩ := foldl_simRelease_effect (releasedTasks (t + 1)) (simulate t) ihc
    have hlen := releasedTasks_length_le (t + 1)
    have hle := occupancyAt_le t
    refine ⟨hc, ?_, hs (by rw [iho]; simp only [QUEUE_SIZE]; omega) ihs⟩
    show occupancy ((releasedTasks (t + 1)).foldl simRelease (simulate t)).w = occupancyAt (t + 1)
    have h1 : (t + 1) % 100 = (t % 100 + 1) % 100 := by omega
    rw [ho, iho, releasedTasks_mod, occupancyAt_mod t, occupancyAt_mod (t + 1), h1]
    exact occupancy_table_next (t % 100) (Nat.mod_lt _ (by decide))
theorem simulate_eq_simTick (t : Nat) : simulate t = simTick (simBefore t) t := by
  cases t <;> rfl

theorem observe_occupancy_le (t k : Nat) : occupancy (observe t k).w ≤ 3 := by
  have hk : ∃ j, j < 7 ∧ (releasedTasks t).take k = (releasedTasks t).take j := by
    by_cases h : k < 7
    · exact ⟨k, h, rfl⟩
    · have hlen := releasedTasks_length_le t
      refine ⟨6, by decide, ?_⟩
      rw [List.take_of_length_le (by omega), List.take_of_length_le hlen]
  obtain ⟨j, hj, hjk⟩ := hk
  unfold observe
  rw [hjk]
  cases t with
  | zero =>
    obtain ⟨_, ho, _⟩ := foldl_simRelease_effect ((releasedTasks 0).take j) startup rfl
    rw [simBefore, ho]
    exact occupancy_table_first.2 j hj
  | succ t =>
    obtain ⟨ihc, iho, _⟩ := simulate_invariant t
    obtain ⟨_, ho, _⟩ :=
      foldl_simRelease_effect ((releasedTasks (t + 1)).take j) (simulate t) ihc
    have h1 : (t + 1) % 100 = (t % 100 + 1) % 100 := by omega
    rw [simBefore, ho, iho, releasedTasks_mod, occupancyAt_mod t, h1]
    exact occupancy_table_within_tick (t % 100) (Nat.mod_lt _ (by decide)) j hj

/-- C8 (counterexample to the claim as stated): in the tick-driven run of the
configured task set there is no tick after which the queue occupancy is 10 at
every observation point and every producer send of the tick fails: at every
tick the occupancy before the first release is at most 3. -/
theorem C8_queue_never_saturates :
    ¬ ∃ N, ∀ t, N < t →
      (∀ k, occupancy (observe t k).w = QUEUE_SIZE)
      ∧ (∀ b ∈ (sendResults (simulate t).w.trace).drop
            (sendResults (simBefore t).w.trace).length, b = false) := by
  rintro ⟨N, h⟩
  have h10 := (h (N + 1) (Nat.lt_succ_self N)).1 0
  have h3 := observe_occupancy_le (N + 1) 0
  rw [h10] at h3
  exact absurd h3 (by decide)

/-- C8 (amended): in the tick-driven run of the configured task set (capacity
10; every monitor release and every transmitter release sends once; the
forwarder takes one message per release; releases of one tick in descending
priority) the queue never reaches its capacity: at every observation point the
occupancy is at most 3; after the releases of tick `t` it is 3, 2, 1, 3, 2, 1
for `t mod 100` in [0,20), [20,40), [40,50), [50,60), [60,80), [80,100); the
pattern repeats every 100 ticks; and every producer send succeeds. -/
theorem C8_occupancy_at_most_three (t k : Nat) :
    occupancy (observe t k).w ≤ 3
    ∧ occupancy (observe t k).w < QUEUE_SIZE
    ∧ observe t 6 = simulate t
    ∧ occupancy (simulate t).w = occupancyAt t
    ∧ occupancy (simulate (t + 100)).w = occupancy (simulate t).w
    ∧ (∀ b ∈ sendResults (simulate t).w.trace, b = true)
    ∧ sendResults (simulate 0).w.trace = [true, true, true]
    ∧ tasksByPriority.map createPriority =
        [some 6, some 5, some 4, some 3, some 2, some 1] := by
  have hle := observe_occupancy_le t k
  obtain ⟨_, ho, hs⟩ := simulate_invariant t
  obtain ⟨_, ho', _⟩ := simulate_invariant (t + 100)
  refine ⟨hle, lt_of_le_of_lt hle (by decide), ?_, ho, ?_, hs, by decide, by decide⟩
  · rw [simulate_eq_simTick, observe, simTick,
      List.take_of_length_le (releasedTasks_length_le t)]
  · rw [ho, ho', occupancyAt_mod (t + 100), Nat.add_mod_right, ← occupancyAt_mod]

end Demo
